import Mathlib

/-!
Verification of the school-CMS attachment-lifecycle behaviour.

Shallow embedding of the two Express server variants of the repository:

* `src/index.js` — the local-disk storage variant (multer diskStorage, files
  served from an `uploads/` directory, helper functions `getLocalFileUrl` and
  `deleteLocalFile`);
* `src/unnamed/part_001` — the Supabase object-storage variant (multer
  memoryStorage, helper functions `uploadToSupabase` and `deleteFromSupabase`).

The storage backend is modelled as an association list from reference strings
to blob contents; the record store as a list of rows addressed by integer id.
Each route handler is translated into a pure function from the pre-state and
the request input to an outcome carrying the HTTP result, the post-state of
the database and the store, and (where the claims need it) a trace of the
storage/database effects in execution order.  Failure modes of the external
collaborators (the filesystem, the Supabase backend, Prisma) are passed in as
explicit oracle arguments, since the code observes them only through thrown
exceptions.
-/

namespace SchoolCms

/-- Blob contents: an opaque byte payload. -/
abbrev Bytes := List Nat

/-- The storage backend: reference string → blob bytes (association list,
most recent entry first, as written by `storePut`). -/
abbrev Store := List (String × Bytes)

def storeLookup : Store → String → Option Bytes
  | [], _ => none
  | (k, v) :: rest, r => if k = r then some v else storeLookup rest r

def storePut (st : Store) (k : String) (v : Bytes) : Store := (k, v) :: st

def storeRemove : Store → String → Store
  | [], _ => []
  | (k, v) :: rest, r =>
    if k = r then storeRemove rest r else (k, v) :: storeRemove rest r

/-- A file as delivered by multer.  Under diskStorage (src/index.js) multer
sets `filename`; under memoryStorage (src/unnamed/part_001) the `filename`
property is absent (JS `undefined`), modelled as `none`. -/
structure UploadedFile where
  originalname : String
  filename : Option String
  buffer : Bytes
  mimetype : String
deriving DecidableEq, Repr

/-- How a request ends: either an HTTP response with the given status was
sent, or an exception escaped every catch (unhandled rejection — no JSON
response is produced). -/
inductive HttpOutcome
  | responded (status : Nat)
  | crashed
deriving DecidableEq, Repr

/-- JS string interpolation of a possibly-undefined value, as in
`` `/uploads/${req.file.filename}` `` when `filename` is undefined. -/
def jsStr : Option String → String
  | some s => s
  | none => "undefined"

/-- JS `a || b` on nullable strings: `null` and `""` are falsy. -/
def jsOrStr (a b : Option String) : Option String :=
  match a with
  | some s => if s = "" then b else some s
  | none => b

/-! ## Local-disk storage helpers (src/index.js) -/

/-- The `__dirname` of src/index.js; an opaque mount point fixed per deployment. -/
def moduleDir : String := "/srv/api"

/-- src/index.js lines 45-47: public URL for a locally stored file. -/
def getLocalFileUrl (filename : String) : String := "/uploads/" ++ filename

/-- Model of the regex replace in deleteLocalFile dropping one leading slash. -/
def stripLeadSlash (s : String) : String :=
  match s.data with
  | '/' :: rest => String.mk rest
  | _ => s

/-- Model of `path.join(__dirname, ...)` for the shapes that occur in the code. -/
def fullPath (filePath : String) : String :=
  moduleDir ++ "/" ++ stripLeadSlash filePath

/-- Filesystem error codes distinguished by src/index.js. -/
inductive FsError
  | enoent
  | eio
deriving DecidableEq, Repr

/-- Model of `fs.unlink`: `fsFail` is the exogenous failure oracle for this call
(`some e` means the filesystem reports error `e` regardless of content);
under normal behaviour (`none`) unlinking a missing path reports ENOENT. -/
def unlink (st : Store) (p : String) (fsFail : Option FsError) :
    Except FsError Store :=
  match fsFail with
  | some e => Except.error e
  | none =>
    match storeLookup st p with
    | some _ => Except.ok (storeRemove st p)
    | none => Except.error FsError.enoent

/-- src/index.js lines 50-61: delete a local file, swallowing ENOENT
(already-absent counts as success) and rethrowing anything else. -/
def deleteLocalFile (st : Store) (filePath : String) (fsFail : Option FsError) :
    Except String Store :=
  match unlink st (fullPath filePath) fsFail with
  | Except.ok st1 => Except.ok st1
  | Except.error FsError.enoent => Except.ok st
  | Except.error FsError.eio => Except.error "Failed to delete local file"

/-! ## Supabase storage helpers (src/unnamed/part_001) -/

/-- The `process.env.SUPABASE_URL` value, fixed for the deployment. -/
def supabaseUrl : String := "https://project.supabase.co"

/-- The bucket name, src/unnamed/part_001 line 21. -/
def bucketName : String := "uploads"

/-- The public-URL base every stored object's URL starts with. -/
def publicUrlBase : String :=
  supabaseUrl ++ "/storage/v1/object/public/" ++ bucketName ++ "/"

/-- Strip `pre` from the front of `s` when it is there (character by
character); `none` when `pre` is not a prefix of `s`. -/
def stripChars : List Char → List Char → Option (List Char)
  | [], s => some s
  | _ :: _, [] => none
  | p :: ps, c :: cs => if p = c then stripChars ps cs else none

/-- Model of `fileUrl.replace(publicUrlBase, "")` as used in deleteFromSupabase: for
every reference the code produces, the base occurs exactly once, at the
front, so replacing the first occurrence is stripping the leading base. -/
def stripUrlBase (fileUrl : String) : String :=
  match stripChars publicUrlBase.data fileUrl.data with
  | some rest => String.mk rest
  | none => fileUrl

/-- src/unnamed/part_001 lines 27-43: upload the buffer under
`Date.now()-originalname`, throw on a backend error, and return the public
URL.  `now` models `Date.now()`; `upErr` models the backend rejecting the
upload. -/
def uploadToSupabase (st : Store) (now : Nat) (f : UploadedFile)
    (upErr : Bool) : Except String (Store × String) :=
  let uniqueFilename := toString now ++ "-" ++ f.originalname
  if upErr then Except.error "Failed to upload file to Supabase"
  else Except.ok
    (storePut st uniqueFilename f.buffer, publicUrlBase ++ uniqueFilename)

/-- src/unnamed/part_001 lines 46-58: strip the public base from the URL and
remove the object.  `delErr` models the backend reporting an error; removing
an absent key is not an error for the backend and leaves the store as is. -/
def deleteFromSupabase (st : Store) (fileUrl : String) (delErr : Bool) :
    Except String Store :=
  if delErr then Except.error "Failed to delete file from Supabase"
  else Except.ok (storeRemove st (stripUrlBase fileUrl))

/-! ## Record store -/

class HasId (α : Type) where
  idOf : α → Nat

/-- Prisma `findUnique` by id: the row with the given id. -/
def dbFind {α : Type} [HasId α] : List α → Nat → Option α
  | [], _ => none
  | r :: rs, i => if HasId.idOf r = i then some r else dbFind rs i

/-- Prisma `update` by id: rewrite the row with the given id. -/
def dbUpdate {α : Type} [HasId α] : List α → Nat → (α → α) → List α
  | [], _, _ => []
  | r :: rs, i, f =>
    (if HasId.idOf r = i then f r else r) :: dbUpdate rs i f

/-- Prisma `delete` by id: drop the row with the given id. -/
def dbDelete {α : Type} [HasId α] : List α → Nat → List α
  | [], _ => []
  | r :: rs, i =>
    if HasId.idOf r = i then dbDelete rs i else r :: dbDelete rs i

/-! ## Entities (prisma/schema.prisma rows touched by the claims) -/

structure News where
  id : Nat
  title : String
  description : String
  image : Option String
  publishedAt : String
deriving DecidableEq, Repr

instance : HasId News := ⟨News.id⟩

structure HeadmasterMessage where
  id : Nat
  message : String
  description : String
  image : Option String
  headmasterName : String
deriving DecidableEq, Repr

instance : HasId HeadmasterMessage := ⟨HeadmasterMessage.id⟩

structure StaffAndTeacher where
  id : Nat
  name : String
  role : String
  image : Option String
deriving DecidableEq, Repr

instance : HasId StaffAndTeacher := ⟨StaffAndTeacher.id⟩

structure StrukturOrganisasi where
  id : Nat
  role : String
  name : String
  image : Option String
deriving DecidableEq, Repr

instance : HasId StrukturOrganisasi := ⟨StrukturOrganisasi.id⟩

/-! ## Effect traces -/

/-- Storage/database effects of one request, in execution order. -/
inductive Ev
  | storeNew (ref : String)
  | deleteOld (ref : String)
  | rowUpdate (id : Nat)
deriving DecidableEq, Repr

def firstIdx : List Ev → Ev → Option Nat
  | [], _ => none
  | x :: xs, e => if x = e then some 0 else (firstIdx xs e).map (· + 1)

/-- Event `a` occurs in the trace strictly before the first occurrence of `b`. -/
def evBefore (tr : List Ev) (a b : Ev) : Bool :=
  match firstIdx tr a, firstIdx tr b with
  | some i, some j => decide (i < j)
  | _, _ => false

/-! ## Handler outcomes -/

structure CrudOut (α : Type) where
  result : HttpOutcome
  db : List α
  store : Store
deriving DecidableEq, Repr

structure TracedOut (α : Type) where
  result : HttpOutcome
  db : List α
  store : Store
  trace : List Ev
deriving DecidableEq, Repr

structure CreateOut (α : Type) where
  result : HttpOutcome
  db : List α
  store : Store
  created : Option α
deriving DecidableEq, Repr

structure GetOut (α : Type) where
  result : HttpOutcome
  body : Option α
  db : List α
  store : Store
deriving DecidableEq, Repr

/-! ## Route handlers, local-disk variant (src/index.js) -/

/-- GET /api/news/:id (src/index.js lines 127-133; the same handler appears
verbatim in src/unnamed/part_001 lines 72-78, and the announcements variant
at lines 245-251 is identical in shape): `findUnique`, then `res.json` of
the result — a missing row serialises as a `null` body with status 200, and
nothing is written. -/
def newsGetById (db : List News) (st : Store) (i : Nat) : GetOut News :=
  { result := HttpOutcome.responded 200, body := dbFind db i, db := db,
    store := st }

/-- PUT /api/news/:id (src/index.js lines 162-204), including the multer
diskStorage middleware, which writes the uploaded file into `uploads/`
before the handler body runs (the `storeNew` trace event).  The handler then
looks the row up (404 when absent); with an upload it computes the new URL,
deletes the old file when the row has one, and finally runs
`prisma.news.update` with `image: newImage || existing.image`.  `fsFail` is
the `fs.unlink` failure oracle, `dbFail` makes `prisma.news.update` throw;
every throw is caught and answered with status 500. -/
def newsPutLocal (db : List News) (st : Store) (i : Nat)
    (title description publishedAt : String) (file : Option UploadedFile)
    (fsFail : Option FsError) (dbFail : Bool) : TracedOut News :=
  let st0 := match file with
    | some f => storePut st (fullPath (getLocalFileUrl (jsStr f.filename))) f.buffer
    | none => st
  let tr0 : List Ev := match file with
    | some f => [Ev.storeNew (getLocalFileUrl (jsStr f.filename))]
    | none => []
  match dbFind db i with
  | none => { result := HttpOutcome.responded 404, db := db, store := st0, trace := tr0 }
  | some existing =>
    let finish (st1 : Store) (tr1 : List Ev) (newImage : Option String) :
        TracedOut News :=
      if dbFail then
        { result := HttpOutcome.responded 500, db := db, store := st1, trace := tr1 }
      else
        { result := HttpOutcome.responded 200,
          db := dbUpdate db i fun r =>
            { r with title := title, description := description,
                     image := jsOrStr newImage existing.image,
                     publishedAt := publishedAt },
          store := st1, trace := tr1 ++ [Ev.rowUpdate i] }
    match file with
    | none => finish st0 tr0 none
    | some f =>
      let newImage := getLocalFileUrl (jsStr f.filename)
      match existing.image with
      | none => finish st0 tr0 (some newImage)
      | some old =>
        match deleteLocalFile st0 old fsFail with
        | Except.error _ =>
          { result := HttpOutcome.responded 500, db := db, store := st0, trace := tr0 }
        | Except.ok st1 => finish st1 (tr0 ++ [Ev.deleteOld old]) (some newImage)

/-- DELETE /api/news/:id (src/index.js lines 207-236): look the row up (404
when absent), delete the associated file when the row has one, then delete
the row; the whole body sits in one try, so a file-deletion throw is caught
and answered with 500 before `prisma.news.delete` is reached. -/
def newsDeleteLocal (db : List News) (st : Store) (i : Nat)
    (fsFail : Option FsError) (dbFail : Bool) : CrudOut News :=
  match dbFind db i with
  | none => { result := HttpOutcome.responded 404, db := db, store := st }
  | some existing =>
    let step : Except String Store :=
      match existing.image with
      | some img => deleteLocalFile st img fsFail
      | none => Except.ok st
    match step with
    | Except.error _ =>
      { result := HttpOutcome.responded 500, db := db, store := st }
    | Except.ok st1 =>
      if dbFail then
        { result := HttpOutcome.responded 500, db := db, store := st1 }
      else
        { result := HttpOutcome.responded 204, db := dbDelete db i, store := st1 }

/-- Names bound at module top level in src/index.js: the imported bindings
and the `const` declarations.  Neither `uploadToSupabase` nor
`deleteFromSupabase` is among them, yet the strukturOrganisasi and
staffandteachers handlers of that file call both. -/
def indexJsTopLevelNames : List String :=
  ["express", "cors", "PrismaClient", "multer", "dotenv", "bcrypt", "jwt",
   "path", "fs", "fileURLToPath", "SECRET_KEY", "prisma", "__filename",
   "__dirname", "app", "storage", "upload", "getLocalFileUrl",
   "deleteLocalFile", "authenticateToken", "PORT"]

/-- POST /api/staffandteachers (src/index.js lines 1047-1064).  The handler
evaluates `req.file ? await uploadToSupabase(req.file) : null` before its
try block; `uploadToSupabase` is a free identifier in src/index.js (it is
not in `indexJsTopLevelNames`), so with a file present that expression
raises a ReferenceError outside any catch — the request crashes and
`prisma.staffAndTeacher.create` never runs.  Without a file the create
proceeds with a null image. -/
def staffPostLocal (db : List StaffAndTeacher) (st : Store)
    (name role : String) (file : Option UploadedFile) (newId : Nat)
    (dbFail : Bool) : CreateOut StaffAndTeacher :=
  match file with
  | some _ => { result := HttpOutcome.crashed, db := db, store := st, created := none }
  | none =>
    if dbFail then
      { result := HttpOutcome.responded 500, db := db, store := st, created := none }
    else
      let row : StaffAndTeacher := ⟨newId, name, role, none⟩
      { result := HttpOutcome.responded 201, db := db ++ [row], store := st,
        created := some row }

/-- DELETE /api/staffandteachers/:id (src/index.js lines 1126-1154): look
the row up (404 when absent); when its image is non-null the handler calls
`deleteFromSupabase`, a free identifier in src/index.js, so a ReferenceError
is raised inside the try, caught, and answered with 500 — the row delete
below it never runs.  Only rows with a null image reach
`prisma.staffAndTeacher.delete`. -/
def staffDeleteLocal (db : List StaffAndTeacher) (st : Store) (i : Nat) :
    CrudOut StaffAndTeacher :=
  match dbFind db i with
  | none => { result := HttpOutcome.responded 404, db := db, store := st }
  | some row =>
    match row.image with
    | some _ => { result := HttpOutcome.responded 500, db := db, store := st }
    | none =>
      { result := HttpOutcome.responded 204, db := dbDelete db i, store := st }

/-- PUT /api/strukturOrganisasi/:id (src/index.js lines 974-1010): look the
row up (404 when absent); with a file present the handler calls the unbound
`uploadToSupabase` inside its try — the ReferenceError is caught and
answered with 500, and neither `deleteFromSupabase` nor the row update is
reached.  Without a file the update runs with
`image: newImage || existing.image` where `newImage` stayed null. -/
def strukturPutLocal (db : List StrukturOrganisasi) (st : Store) (i : Nat)
    (role name : String) (file : Option UploadedFile) (dbFail : Bool) :
    CrudOut StrukturOrganisasi :=
  match dbFind db i with
  | none => { result := HttpOutcome.responded 404, db := db, store := st }
  | some existing =>
    match file with
    | some _ => { result := HttpOutcome.responded 500, db := db, store := st }
    | none =>
      if dbFail then
        { result := HttpOutcome.responded 500, db := db, store := st }
      else
        { result := HttpOutcome.responded 200,
          db := dbUpdate db i fun r =>
            { r with role := role, name := name,
                     image := jsOrStr none existing.image },
          store := st }

/-! ## Route handlers, Supabase variant (src/unnamed/part_001) -/

/-- POST /api/news (src/unnamed/part_001 lines 81-102): with a file, upload
to Supabase first (a failure throws, is caught, and aborts with 500 before
the create); then `prisma.news.create` with the public URL or null.
`newId` is the id the record store assigns to the new row. -/
def newsPostSupabase (db : List News) (st : Store)
    (title description publishedAt : String) (file : Option UploadedFile)
    (now newId : Nat) (upErr dbFail : Bool) : CreateOut News :=
  let finish (st1 : Store) (image : Option String) : CreateOut News :=
    if dbFail then
      { result := HttpOutcome.responded 500, db := db, store := st1, created := none }
    else
      let row : News := ⟨newId, title, description, image, publishedAt⟩
      { result := HttpOutcome.responded 200, db := db ++ [row], store := st1,
        created := some row }
  match file with
  | none => finish st none
  | some f =>
    match uploadToSupabase st now f upErr with
    | Except.error _ =>
      { result := HttpOutcome.responded 500, db := db, store := st, created := none }
    | Except.ok (st1, url) => finish st1 (some url)

/-- PUT /api/news/:id (src/unnamed/part_001 lines 105-146): look the row up
(404 when absent); with a file, upload first (failure → 500 before any
deletion), then delete the old object when the row has one (failure → 500
before the row update), then `prisma.news.update` with
`image: newImage || existing.image`. -/
def newsPutSupabase (db : List News) (st : Store) (i : Nat)
    (title description publishedAt : String) (file : Option UploadedFile)
    (now : Nat) (upErr delErr dbFail : Bool) : CrudOut News :=
  match dbFind db i with
  | none => { result := HttpOutcome.responded 404, db := db, store := st }
  | some existing =>
    let finish (st2 : Store) (newImage : Option String) : CrudOut News :=
      if dbFail then
        { result := HttpOutcome.responded 500, db := db, store := st2 }
      else
        { result := HttpOutcome.responded 200,
          db := dbUpdate db i fun r =>
            { r with title := title, description := description,
                     image := jsOrStr newImage existing.image,
                     publishedAt := publishedAt },
          store := st2 }
    match file with
    | none => finish st none
    | some f =>
      match uploadToSupabase st now f upErr with
      | Except.error _ =>
        { result := HttpOutcome.responded 500, db := db, store := st }
      | Except.ok (st1, url) =>
        match existing.image with
        | none => finish st1 (some url)
        | some old =>
          match deleteFromSupabase st1 old delErr with
          | Except.error _ =>
            { result := HttpOutcome.responded 500, db := db, store := st1 }
          | Except.ok st2 => finish st2 (some url)

/-- PUT /api/headmaster-message/:id (src/unnamed/part_001 lines 799-827).
This variant stores uploads with multer.memoryStorage, so `req.file.filename`
is undefined and the computed reference is the literal
`"/uploads/undefined"`; the handler never calls `uploadToSupabase` (nothing
is persisted to storage) and never deletes the superseded object.  It does
no lookup either: `prisma.headmasterMessage.update` on a missing id rejects,
is caught, and is answered with a plain 500.  The update sets
`image: image || undefined`, so with no file the field is omitted and keeps
its old value. -/
def hmPutSupabase (db : List HeadmasterMessage) (st : Store) (i : Nat)
    (message description headmasterName : String) (file : Option UploadedFile)
    (dbFail : Bool) : CrudOut HeadmasterMessage :=
  let image : Option String := match file with
    | some f => some ("/uploads/" ++ jsStr f.filename)
    | none => none
  match dbFind db i with
  | none => { result := HttpOutcome.responded 500, db := db, store := st }
  | some _ =>
    if dbFail then
      { result := HttpOutcome.responded 500, db := db, store := st }
    else
      { result := HttpOutcome.responded 200,
        db := dbUpdate db i fun r =>
          { r with message := message, description := description,
                   headmasterName := headmasterName,
                   image := match jsOrStr image none with
                            | none => r.image
                            | some s => some s },
        store := st }

/-- PUT /api/staffandteachers/:id (src/unnamed/part_001 lines 1045-1064).
No lookup, no try/catch: `prisma.staffAndTeacher.update` on a missing id
rejects and nothing catches it — the request crashes without any response
(in particular, no 404 is ever produced).  With a row present the update
sets `image: image || undefined` (memoryStorage, so a file yields the
literal `"/uploads/undefined"`); storage is never touched. -/
def staffPutSupabase (db : List StaffAndTeacher) (st : Store) (i : Nat)
    (name role : String) (file : Option UploadedFile) :
    CrudOut StaffAndTeacher :=
  let image : Option String := match file with
    | some f => some ("/uploads/" ++ jsStr f.filename)
    | none => none
  match dbFind db i with
  | none => { result := HttpOutcome.crashed, db := db, store := st }
  | some _ =>
    { result := HttpOutcome.responded 200,
      db := dbUpdate db i fun r =>
        { r with name := name, role := role,
                 image := match jsOrStr image none with
                          | none => r.image
                          | some s => some s },
      store := st }

/-! ## Basic lemmas about the store, the record store, and the helpers -/

theorem storeLookup_put_self (st : Store) (k : String) (v : Bytes) :
    storeLookup (storePut st k v) k = some v := by
  simp [storePut, storeLookup]

theorem storeLookup_put_ne (st : Store) (k q : String) (v : Bytes)
    (h : q ≠ k) : storeLookup (storePut st k v) q = storeLookup st q := by
  have hkq : ¬ k = q := fun e => h e.symm
  simp [storePut, storeLookup, hkq]

theorem storeLookup_remove_self (st : Store) (k : String) :
    storeLookup (storeRemove st k) k = none := by
  induction st with
  | nil => rfl
  | cons hd tl ih =>
    obtain ⟨a, b⟩ := hd
    by_cases hak : a = k <;> simp [storeRemove, storeLookup, hak, ih]

theorem storeLookup_remove_ne (st : Store) (k q : String) (h : q ≠ k) :
    storeLookup (storeRemove st k) q = storeLookup st q := by
  have hkq : ¬ k = q := fun e => h e.symm
  induction st with
  | nil => rfl
  | cons hd tl ih =>
    obtain ⟨a, b⟩ := hd
    by_cases hak : a = k
    · simp [storeRemove, storeLookup, hak, hkq, ih]
    · by_cases haq : a = q <;>
        simp [storeRemove, storeLookup, hak, haq, h, ih]

theorem dbFind_dbUpdate_self {α : Type} [HasId α] (db : List α) (i : Nat)
    (f : α → α) (hf : ∀ r, HasId.idOf (f r) = HasId.idOf r) :
    dbFind (dbUpdate db i f) i = (dbFind db i).map f := by
  induction db with
  | nil => rfl
  | cons r rs ih =>
    by_cases hr : HasId.idOf r = i <;> simp [dbUpdate, dbFind, hr, hf r, ih]

theorem dbFind_dbDelete_self {α : Type} [HasId α] (db : List α) (i : Nat) :
    dbFind (dbDelete db i) i = none := by
  induction db with
  | nil => rfl
  | cons r rs ih =>
    by_cases hr : HasId.idOf r = i <;> simp [dbDelete, dbFind, hr, ih]

theorem stripChars_append (p s : List Char) :
    stripChars p (p ++ s) = some s := by
  induction p with
  | nil => rfl
  | cons c cs ih => simp [stripChars, ih]

theorem stripUrlBase_append (s : String) :
    stripUrlBase (publicUrlBase ++ s) = s := by
  have hdata : (publicUrlBase ++ s).data = publicUrlBase.data ++ s.data := rfl
  show (match stripChars publicUrlBase.data (publicUrlBase ++ s).data with
        | some rest => String.mk rest
        | none => publicUrlBase ++ s) = s
  rw [hdata, stripChars_append]

theorem slashUploads_ne_empty (s : String) :
    ("/uploads/" ++ s : String) ≠ "" := by
  intro h
  have h2 : ("/uploads/".data ++ s.data) = ([] : List Char) :=
    congrArg String.data h
  simp at h2

theorem jsOrStr_none (b : Option String) : jsOrStr none b = b := rfl

/-- Under normal filesystem behaviour `deleteLocalFile` always succeeds
(already-absent is swallowed as success), the target path is absent
afterwards, and every other path is untouched. -/
theorem deleteLocalFile_none_ok (st : Store) (p : String) :
    ∃ st1, deleteLocalFile st p none = Except.ok st1 ∧
      storeLookup st1 (fullPath p) = none ∧
      ∀ q, q ≠ fullPath p → storeLookup st1 q = storeLookup st q := by
  unfold deleteLocalFile unlink
  cases hlk : storeLookup st (fullPath p) with
  | none => exact ⟨st, rfl, hlk, fun q _ => rfl⟩
  | some b =>
    exact ⟨storeRemove st (fullPath p), rfl,
      storeLookup_remove_self st (fullPath p),
      fun q hq => storeLookup_remove_ne st (fullPath p) q hq⟩

theorem jsOrStr_uploads (s : String) (b : Option String) :
    jsOrStr (some ("/uploads/" ++ s)) b = some ("/uploads/" ++ s) := by
  simp [jsOrStr, slashUploads_ne_empty s]

/-! ## Concrete fixtures used by counterexamples and witnesses -/

def exNews : News := ⟨1, "t", "d", some "/uploads/old.png", "2024"⟩

def exNewsDb : List News := [exNews]

def exNewsStore : Store := [(fullPath "/uploads/old.png", [1, 2, 3])]

/-- An upload as seen under multer diskStorage (filename assigned). -/
def exDiskFile : UploadedFile := ⟨"new.png", some "1700-new.png", [9, 9], "image/png"⟩

/-- An upload as seen under multer.memoryStorage (no filename property). -/
def exMemFile : UploadedFile := ⟨"new.png", none, [7], "image/png"⟩

def exHm : HeadmasterMessage :=
  ⟨1, "m", "d", some (publicUrlBase ++ "old.png"), "head"⟩

def exHmDb : List HeadmasterMessage := [exHm]

def exHmStore : Store := [("old.png", [5, 5])]

/-! ## Claim C1 -/

/-- C1, counterexample: on PUT /api/news/1 of src/index.js with an uploaded
file over a record whose image is `/uploads/old.png`, the handler deletes
the old blob and only afterwards updates the record row — the row update
does NOT precede the blob deletion, refuting the claimed order at this
concrete input (the request succeeds with 200, so this is the completed
path, not an aborted one). -/
theorem claim1_counterexample :
    (newsPutLocal exNewsDb exNewsStore 1 "t2" "d2" "2025" (some exDiskFile)
        none false).result = HttpOutcome.responded 200 ∧
    evBefore (newsPutLocal exNewsDb exNewsStore 1 "t2" "d2" "2025"
        (some exDiskFile) none false).trace
      (Ev.rowUpdate 1) (Ev.deleteOld "/uploads/old.png") = false ∧
    evBefore (newsPutLocal exNewsDb exNewsStore 1 "t2" "d2" "2025"
        (some exDiskFile) none false).trace
      (Ev.deleteOld "/uploads/old.png") (Ev.rowUpdate 1) = true := by
  refine ⟨rfl, rfl, rfl⟩

/-- C1 amended: on update with an upload over a record with a non-null
reference, the handler deletes the previously referenced blob BEFORE
updating the record row (the reverse of the claimed order).  When the
update completes successfully the record's reference is the new blob's
reference, which is live in the store; but because the deletion precedes
the row update, a row-update failure leaves the (unchanged) record pointing
at the already-deleted blob. -/
theorem claim1_theorem (db : List News) (st : Store) (i : Nat)
    (t d p : String) (f : UploadedFile) (old fn : String) (row : News)
    (hfind : dbFind db i = some row) (hold : row.image = some old)
    (hfn : f.filename = some fn)
    (hne : fullPath old ≠ fullPath (getLocalFileUrl fn)) :
    ((newsPutLocal db st i t d p (some f) none false).result =
        HttpOutcome.responded 200 ∧
     evBefore (newsPutLocal db st i t d p (some f) none false).trace
        (Ev.deleteOld old) (Ev.rowUpdate i) = true ∧
     (dbFind (newsPutLocal db st i t d p (some f) none false).db i).map
        News.image = some (some (getLocalFileUrl fn)) ∧
     storeLookup (newsPutLocal db st i t d p (some f) none false).store
        (fullPath (getLocalFileUrl fn)) = some f.buffer ∧
     storeLookup (newsPutLocal db st i t d p (some f) none false).store
        (fullPath old) = none) ∧
    ((newsPutLocal db st i t d p (some f) none true).result =
        HttpOutcome.responded 500 ∧
     (newsPutLocal db st i t d p (some f) none true).db = db ∧
     storeLookup (newsPutLocal db st i t d p (some f) none true).store
        (fullPath old) = none) := by
  have hju : jsStr f.filename = fn := by simp [hfn, jsStr]
  have hne2 : fullPath (getLocalFileUrl fn) ≠ fullPath old :=
    fun e => hne e.symm
  obtain ⟨st1, hdel, habsent, hother⟩ :=
    deleteLocalFile_none_ok
      (storePut st (fullPath (getLocalFileUrl fn)) f.buffer) old
  have hupd : dbFind
      (dbUpdate db i fun r =>
        { r with title := t, description := d,
                 image := jsOrStr (some (getLocalFileUrl fn)) (some old),
                 publishedAt := p }) i =
      some (⟨row.id, t, d, jsOrStr (some (getLocalFileUrl fn)) (some old),
             p⟩ : News) := by
    rw [dbFind_dbUpdate_self db i
        (fun r => { r with title := t, description := d,
                           image := jsOrStr (some (getLocalFileUrl fn)) (some old),
                           publishedAt := p })
        (fun r => rfl), hfind]
    rfl
  have hlive : storeLookup st1 (fullPath (getLocalFileUrl fn)) =
      some f.buffer := by
    rw [hother _ hne2, storeLookup_put_self]
  refine ⟨⟨?_, ?_, ?_, ?_, ?_⟩, ?_, ?_, ?_⟩
  · simp [newsPutLocal, hju, hfind, hold, hdel]
  · simp [newsPutLocal, hju, hfind, hold, hdel, evBefore, firstIdx]
  · simp only [newsPutLocal, hju, hfind, hold, hdel]
    simp only [Bool.false_eq_true, if_false]
    rw [hupd]
    simp [jsOrStr_uploads fn, getLocalFileUrl]
  · simpa [newsPutLocal, hju, hfind, hold, hdel] using hlive
  · simpa [newsPutLocal, hju, hfind, hold, hdel] using habsent
  · simp [newsPutLocal, hju, hfind, hold, hdel]
  · simp [newsPutLocal, hju, hfind, hold, hdel]
  · simpa [newsPutLocal, hju, hfind, hold, hdel] using habsent

/-- C1 amended, witness: the amended theorem instantiated at a concrete
record and upload — the deletion of the old blob precedes the row update. -/
theorem claim1_witness :
    evBefore (newsPutLocal exNewsDb exNewsStore 1 "t2" "d2" "2025"
        (some exDiskFile) none false).trace
      (Ev.deleteOld "/uploads/old.png") (Ev.rowUpdate 1) = true :=
  ((claim1_theorem exNewsDb exNewsStore 1 "t2" "d2" "2025" exDiskFile
      "/uploads/old.png" "1700-new.png" exNews rfl rfl rfl
      (by decide)).1).2.1

/-! ## Claim C2 -/

/-- C2, evaluation at the failing input: PUT /api/headmaster-message/1 of
src/unnamed/part_001 with an uploaded file over a record whose prior blob
is live succeeds with 200, yet the storage is untouched — the prior blob is
still present, nothing was stored for the new upload, and the row's new
reference is the literal string `/uploads/undefined`, which resolves to no
blob.  This contradicts the claim (new blob stored and retrievable, prior
blob deleted); the spec's own design notes call this handler variant a
defect, so the claim is right and the code is wrong. -/
theorem claim2_theorem :
    (hmPutSupabase exHmDb exHmStore 1 "m2" "d2" "h2" (some exMemFile)
        false).result = HttpOutcome.responded 200 ∧
    (hmPutSupabase exHmDb exHmStore 1 "m2" "d2" "h2" (some exMemFile)
        false).store = exHmStore ∧
    storeLookup (hmPutSupabase exHmDb exHmStore 1 "m2" "d2" "h2"
        (some exMemFile) false).store "old.png" = some [5, 5] ∧
    (dbFind (hmPutSupabase exHmDb exHmStore 1 "m2" "d2" "h2"
        (some exMemFile) false).db 1).map HeadmasterMessage.image =
      some (some "/uploads/undefined") ∧
    storeLookup (hmPutSupabase exHmDb exHmStore 1 "m2" "d2" "h2"
        (some exMemFile) false).store
      (stripUrlBase "/uploads/undefined") = none := by
  refine ⟨rfl, rfl, rfl, ?_, ?_⟩ <;> decide

/-! ## Claim C3 -/

/-- C3, counterexample: on DELETE /api/news/1 of src/index.js over a record
whose image blob deletion fails (a non-ENOENT filesystem error), the
handler answers 500 and the record row is still present — the blob-cleanup
failure DOES prevent the record delete, refuting the claim at this concrete
input. -/
theorem claim3_counterexample :
    (newsDeleteLocal exNewsDb exNewsStore 1 (some FsError.eio)
        false).result = HttpOutcome.responded 500 ∧
    (newsDeleteLocal exNewsDb exNewsStore 1 (some FsError.eio) false).db =
      exNewsDb ∧
    dbFind (newsDeleteLocal exNewsDb exNewsStore 1 (some FsError.eio)
        false).db 1 = some exNews := by
  refine ⟨rfl, rfl, rfl⟩

/-- C3 amended: a blob-deletion failure other than "already absent" aborts
the DELETE handler with a 500 and the record row is NOT deleted; only under
normal filesystem behaviour (where an already-absent blob counts as
success) does the record delete proceed and complete. -/
theorem claim3_theorem (db : List News) (st : Store) (i : Nat) (row : News)
    (img : String) (hfind : dbFind db i = some row)
    (himg : row.image = some img) :
    ((newsDeleteLocal db st i (some FsError.eio) false).result =
        HttpOutcome.responded 500 ∧
     (newsDeleteLocal db st i (some FsError.eio) false).db = db) ∧
    ((newsDeleteLocal db st i none false).result =
        HttpOutcome.responded 204 ∧
     dbFind (newsDeleteLocal db st i none false).db i = none ∧
     storeLookup (newsDeleteLocal db st i none false).store (fullPath img) =
       none) := by
  obtain ⟨st1, hdel, habsent, hother⟩ := deleteLocalFile_none_ok st img
  refine ⟨⟨?_, ?_⟩, ?_, ?_, ?_⟩
  · simp [newsDeleteLocal, hfind, himg, deleteLocalFile, unlink]
  · simp [newsDeleteLocal, hfind, himg, deleteLocalFile, unlink]
  · simp [newsDeleteLocal, hfind, himg, hdel]
  · simp [newsDeleteLocal, hfind, himg, hdel, dbFind_dbDelete_self]
  · simpa [newsDeleteLocal, hfind, himg, hdel] using habsent

/-- C3 amended, witness: the amended theorem at a concrete record — failing
cleanup leaves the row; normal cleanup lets the delete complete. -/
theorem claim3_witness :
    (newsDeleteLocal exNewsDb exNewsStore 1 (some FsError.eio)
        false).result = HttpOutcome.responded 500 ∧
    (newsDeleteLocal exNewsDb exNewsStore 1 none false).result =
      HttpOutcome.responded 204 :=
  ⟨((claim3_theorem exNewsDb exNewsStore 1 exNews "/uploads/old.png" rfl
      rfl).1).1,
   ((claim3_theorem exNewsDb exNewsStore 1 exNews "/uploads/old.png" rfl
      rfl).2).1⟩

/-! ## Claim C4 -/

/-- C4: when storing the new blob fails, the Supabase-variant create and
update handlers abort with a 500 before any mutation — the news table, the
store, and in particular the previously referenced blob are exactly as
before the call. -/
theorem claim4_theorem :
    (∀ (db : List News) (st : Store) (t d p : String) (f : UploadedFile)
       (now newId : Nat) (dbFail : Bool),
      newsPostSupabase db st t d p (some f) now newId true dbFail =
        { result := HttpOutcome.responded 500, db := db, store := st,
          created := none }) ∧
    (∀ (db : List News) (st : Store) (i : Nat) (t d p : String)
       (f : UploadedFile) (now : Nat) (delErr dbFail : Bool) (row : News),
      dbFind db i = some row →
      newsPutSupabase db st i t d p (some f) now true delErr dbFail =
        { result := HttpOutcome.responded 500, db := db, store := st }) := by
  constructor
  · intro db st t d p f now newId dbFail
    simp [newsPostSupabase, uploadToSupabase]
  · intro db st i t d p f now delErr dbFail row hfind
    simp [newsPutSupabase, hfind, uploadToSupabase]

/-- C4, witness: the theorem instantiated at a concrete record and upload
with the backend rejecting the upload. -/
theorem claim4_witness :
    newsPostSupabase exNewsDb exNewsStore "t" "d" "p" (some exMemFile) 5 2
        true false =
      { result := HttpOutcome.responded 500, db := exNewsDb,
        store := exNewsStore, created := none } ∧
    newsPutSupabase exNewsDb exNewsStore 1 "t" "d" "p" (some exMemFile) 5
        true false false =
      { result := HttpOutcome.responded 500, db := exNewsDb,
        store := exNewsStore } :=
  ⟨claim4_theorem.1 exNewsDb exNewsStore "t" "d" "p" exMemFile 5 2 false,
   claim4_theorem.2 exNewsDb exNewsStore 1 "t" "d" "p" exMemFile 5 false
     false exNews rfl⟩

/-! ## Claim C5 -/

def exStaff : StaffAndTeacher := ⟨1, "nm", "rl", some "/uploads/s.png"⟩

def exStaffDb : List StaffAndTeacher := [exStaff]

/-- C5: an update with no uploaded file leaves the record's attachment
reference exactly as it was, even though the other fields change, and never
touches storage — shown for the news PUT of src/index.js (any database or
filesystem oracle) and for the staff/teacher PUT of src/unnamed/part_001;
in particular no such update can clear a non-null reference to null. -/
theorem claim5_theorem :
    (∀ (db : List News) (st : Store) (i : Nat) (t d p : String)
       (fsFail : Option FsError) (dbFail : Bool) (row : News),
      dbFind db i = some row →
      (dbFind (newsPutLocal db st i t d p none fsFail dbFail).db i).map
          News.image = some row.image ∧
      (newsPutLocal db st i t d p none fsFail dbFail).store = st) ∧
    (∀ (db : List StaffAndTeacher) (st : Store) (i : Nat) (n r : String)
       (row : StaffAndTeacher),
      dbFind db i = some row →
      (dbFind (staffPutSupabase db st i n r none).db i).map
          StaffAndTeacher.image = some row.image ∧
      (staffPutSupabase db st i n r none).store = st) := by
  constructor
  · intro db st i t d p fsFail dbFail row hfind
    have hupd : dbFind
        (dbUpdate db i fun r =>
          { r with title := t, description := d, image := row.image,
                   publishedAt := p }) i =
        some (⟨row.id, t, d, row.image, p⟩ : News) := by
      rw [dbFind_dbUpdate_self db i
          (fun r => { r with title := t, description := d,
                             image := row.image, publishedAt := p })
          (fun r => rfl), hfind]
      rfl
    cases dbFail <;> simp [newsPutLocal, hfind, hupd, jsOrStr]
  · intro db st i n r row hfind
    have hupd : dbFind
        (dbUpdate db i fun s => { s with name := n, role := r }) i =
        some (⟨row.id, n, r, row.image⟩ : StaffAndTeacher) := by
      rw [dbFind_dbUpdate_self db i
          (fun s => { s with name := n, role := r })
          (fun s => rfl), hfind]
      rfl
    simp [staffPutSupabase, hfind, hupd, jsOrStr, jsStr]

/-- C5, witness: concrete no-upload updates — the news record keeps its
image and the staff record keeps its image. -/
theorem claim5_witness :
    (dbFind (newsPutLocal exNewsDb exNewsStore 1 "t2" "d2" "p2" none none
        false).db 1).map News.image = some (some "/uploads/old.png") ∧
    (dbFind (staffPutSupabase exStaffDb [] 1 "n2" "r2" none).db 1).map
        StaffAndTeacher.image = some (some "/uploads/s.png") :=
  ⟨(claim5_theorem.1 exNewsDb exNewsStore 1 "t2" "d2" "p2" none false
      exNews rfl).1,
   (claim5_theorem.2 exStaffDb [] 1 "n2" "r2" exStaff rfl).1⟩

/-! ## Claim C6 -/

/-- C6, counterexample: PUT /api/staffandteachers/7 of src/unnamed/part_001
with no row of id 7 does not surface a NotFound result — the handler does no
lookup and has no catch, so the `prisma.update` rejection escapes as a
generic failure (no 404 response is produced), refuting the claim that
every update on a missing id surfaces NotFound. -/
theorem claim6_counterexample :
    (staffPutSupabase [] [] 7 "n" "r" none).result = HttpOutcome.crashed ∧
    ¬ (staffPutSupabase [] [] 7 "n" "r" none).result =
        HttpOutcome.responded 404 ∧
    (staffPutSupabase [] [] 7 "n" "r" none).db = [] := by
  refine ⟨rfl, by decide, rfl⟩

/-- C6 amended: handlers that look the row up first (news update and delete
in src/index.js) surface NotFound (404) on a missing id without mutating
the database or the store; but the staff/teacher update handler of
src/unnamed/part_001 skips the lookup and a missing id escapes as a generic
unhandled failure instead of NotFound — also without mutation. -/
theorem claim6_theorem :
    (∀ (db : List News) (st : Store) (i : Nat) (t d p : String)
       (fsFail : Option FsError) (dbFail : Bool),
      dbFind db i = none →
      newsPutLocal db st i t d p none fsFail dbFail =
        { result := HttpOutcome.responded 404, db := db, store := st,
          trace := [] }) ∧
    (∀ (db : List News) (st : Store) (i : Nat) (fsFail : Option FsError)
       (dbFail : Bool),
      dbFind db i = none →
      newsDeleteLocal db st i fsFail dbFail =
        { result := HttpOutcome.responded 404, db := db, store := st }) ∧
    (∀ (db : List StaffAndTeacher) (st : Store) (i : Nat) (n r : String)
       (file : Option UploadedFile),
      dbFind db i = none →
      staffPutSupabase db st i n r file =
        { result := HttpOutcome.crashed, db := db, store := st }) := by
  refine ⟨?_, ?_, ?_⟩
  · intro db st i t d p fsFail dbFail h
    simp [newsPutLocal, h]
  · intro db st i fsFail dbFail h
    simp [newsDeleteLocal, h]
  · intro db st i n r file h
    simp [staffPutSupabase, h]

/-- C6 amended, witness: the amended theorem at the empty database. -/
theorem claim6_witness :
    newsPutLocal [] [] 3 "t" "d" "p" none none false =
      { result := HttpOutcome.responded 404, db := [], store := [],
        trace := [] } ∧
    staffPutSupabase [] [] 3 "n" "r" none =
      { result := HttpOutcome.crashed, db := [], store := [] } :=
  ⟨claim6_theorem.1 [] [] 3 "t" "d" "p" none false rfl,
   claim6_theorem.2.2 [] [] 3 "n" "r" none rfl⟩

/-! ## Claim C7 -/

/-- C7: local blob deletion is idempotent — deleting an already-absent path
is treated as success (the store is returned unchanged), and deleting the
same reference twice in a row yields success on the second call as well,
with the state unchanged from the first call's result. -/
theorem claim7_theorem :
    (∀ (st : Store) (p : String), storeLookup st (fullPath p) = none →
      deleteLocalFile st p none = Except.ok st) ∧
    (∀ (st : Store) (p : String), ∃ st1,
      deleteLocalFile st p none = Except.ok st1 ∧
      deleteLocalFile st1 p none = Except.ok st1) := by
  constructor
  · intro st p habs
    simp [deleteLocalFile, unlink, habs]
  · intro st p
    obtain ⟨st1, h1, habs, _⟩ := deleteLocalFile_none_ok st p
    exact ⟨st1, h1, by simp [deleteLocalFile, unlink, habs]⟩

/-- C7, witness: deleting a path absent from the empty store succeeds. -/
theorem claim7_witness :
    deleteLocalFile [] "/uploads/x.png" none = Except.ok [] :=
  claim7_theorem.1 [] "/uploads/x.png" rfl

/-! ## Claim C8 -/

/-- C8: a Supabase-variant create with no upload yields a record whose
attachment reference is null and leaves storage untouched; a create with an
upload stores the blob and sets the created record's reference to the
stored blob's public URL, under which (stripped back to the object key, as
the delete helper does) the uploaded bytes are retrievable. -/
theorem claim8_theorem :
    (∀ (db : List News) (st : Store) (t d p : String) (now newId : Nat),
      (newsPostSupabase db st t d p none now newId false false).created =
        some (⟨newId, t, d, none, p⟩ : News) ∧
      (newsPostSupabase db st t d p none now newId false false).store = st) ∧
    (∀ (db : List News) (st : Store) (t d p : String) (f : UploadedFile)
       (now newId : Nat),
      (newsPostSupabase db st t d p (some f) now newId false
          false).created =
        some (⟨newId, t, d,
               some (publicUrlBase ++ (toString now ++ "-" ++
                 f.originalname)), p⟩ : News) ∧
      storeLookup
        (newsPostSupabase db st t d p (some f) now newId false false).store
        (stripUrlBase (publicUrlBase ++ (toString now ++ "-" ++
          f.originalname))) = some f.buffer) := by
  constructor
  · intro db st t d p now newId
    exact ⟨rfl, rfl⟩
  · intro db st t d p f now newId
    constructor
    · simp [newsPostSupabase, uploadToSupabase]
    · simp [newsPostSupabase, uploadToSupabase, stripUrlBase_append,
        storeLookup_put_self]

/-! ## Claim C9 -/

def exStruktur : StrukturOrganisasi := ⟨1, "ro", "nm", some "/uploads/g.png"⟩

def exStrukturDb : List StrukturOrganisasi := [exStruktur]

/-- C9: src/index.js never binds `uploadToSupabase` or `deleteFromSupabase`
at module top level, yet its strukturOrganisasi and staffandteachers
handlers call them — so a staff create with an upload crashes on the
ReferenceError before the row create (file evaluated outside the try), a
strukturOrganisasi update with an upload is caught and answered 500 before
any mutation, and a staff delete over a non-null image is caught and
answered 500 before the row delete: none of these operations ever
commits. -/
theorem claim9_theorem :
    ¬ "uploadToSupabase" ∈ indexJsTopLevelNames ∧
    ¬ "deleteFromSupabase" ∈ indexJsTopLevelNames ∧
    (∀ (db : List StaffAndTeacher) (st : Store) (n r : String)
       (f : UploadedFile) (newId : Nat) (dbFail : Bool),
      staffPostLocal db st n r (some f) newId dbFail =
        { result := HttpOutcome.crashed, db := db, store := st,
          created := none }) ∧
    (∀ (db : List StrukturOrganisasi) (st : Store) (i : Nat)
       (ro nm : String) (f : UploadedFile) (dbFail : Bool)
       (row : StrukturOrganisasi),
      dbFind db i = some row →
      strukturPutLocal db st i ro nm (some f) dbFail =
        { result := HttpOutcome.responded 500, db := db, store := st }) ∧
    (∀ (db : List StaffAndTeacher) (st : Store) (i : Nat)
       (row : StaffAndTeacher) (img : String),
      dbFind db i = some row → row.image = some img →
      staffDeleteLocal db st i =
        { result := HttpOutcome.responded 500, db := db, store := st }) := by
  refine ⟨by decide, by decide, ?_, ?_, ?_⟩
  · intro db st n r f newId dbFail
    rfl
  · intro db st i ro nm f dbFail row hfind
    simp [strukturPutLocal, hfind]
  · intro db st i row img hfind himg
    simp [staffDeleteLocal, hfind, himg]

/-- C9, witness: the theorem at concrete rows — the staff create with an
upload crashes without creating, the strukturOrganisasi update with an
upload answers 500 without updating, and the staff delete over a non-null
image answers 500 without deleting the row. -/
theorem claim9_witness :
    staffPostLocal exStaffDb [] "n" "r" (some exMemFile) 9 false =
      { result := HttpOutcome.crashed, db := exStaffDb, store := [],
        created := none } ∧
    strukturPutLocal exStrukturDb [] 1 "ro2" "nm2" (some exMemFile) false =
      { result := HttpOutcome.responded 500, db := exStrukturDb,
        store := [] } ∧
    staffDeleteLocal exStaffDb [] 1 =
      { result := HttpOutcome.responded 500, db := exStaffDb,
        store := [] } :=
  ⟨claim9_theorem.2.2.1 exStaffDb [] "n" "r" exMemFile 9 false,
   claim9_theorem.2.2.2.1 exStrukturDb [] 1 "ro2" "nm2" exMemFile false
     exStruktur rfl,
   claim9_theorem.2.2.2.2 exStaffDb [] 1 exStaff "/uploads/s.png" rfl rfl⟩

/-! ## Claim C10 -/

/-- C10: a get-by-id request whose id matches no record responds with
status 200 and a null body (not a NotFound error), and the read changes
neither the database nor the store — the handler shape shared verbatim by
GET /api/news/:id in both server variants and the announcements reader. -/
theorem claim10_theorem (db : List News) (st : Store) (i : Nat)
    (h : dbFind db i = none) :
    newsGetById db st i =
      { result := HttpOutcome.responded 200, body := none, db := db,
        store := st } := by
  simp [newsGetById, h]

/-- C10, witness: the theorem at the empty database. -/
theorem claim10_witness :
    newsGetById [] [] 3 =
      { result := HttpOutcome.responded 200, body := none, db := [],
        store := [] } :=
  claim10_theorem [] [] 3 rfl

end SchoolCms
